import Mathlib

/-!
# Verification of the photo-transformer orchestration service

Shallow embedding of the two server variants found in the repository:

* `A1111` — `orchestrator/src/index.ts`: an Express server that forwards
  uploads to an Automatic1111 `img2img` REST endpoint.
* `Comfy` — the ComfyUI variant: an Express server that submits a job graph
  to ComfyUI's queue and waits on a WebSocket for the completion event.

Each `/generate` handler is modelled as a pure function from the incoming
request plus a backend-behaviour oracle to an HTTP response together with a
trace of filesystem events (temp-file creation/rename/unlink) and the list
of HTTP calls made to the inference backend.
-/

namespace ImgApp

/-- Raw file bytes, abstracted as a list of byte values. -/
abbrev Bytes := List Nat

/-- Process-wide configuration read from the environment at startup. -/
structure Config where
  familyPin : String
deriving DecidableEq, Repr

/-- A JSON value, as far as the `/auth` body's `pin` field is concerned.
`jabsent` stands for a missing field (JavaScript `undefined`). -/
inductive JVal where
  | jstr (s : String)
  | jnum (n : Int)
  | jbool (b : Bool)
  | jnull
  | jabsent
deriving DecidableEq, Repr

/-- JavaScript strict equality `v === s` between an arbitrary JSON value and
a string: true only when `v` is the identical string. -/
def jsStrictEqStr : JVal → String → Bool
  | .jstr s, p => s == p
  | _, _ => false

/-- A (positive, negative) prompt pair for one style. -/
structure PromptPair where
  positive : String
  negative : String
deriving DecidableEq, Repr

/-- Client-visible response body. -/
inductive RespBody where
  | jsonError (msg : String)
  | jsonSuccess
  | imageData (data : String)
deriving DecidableEq, Repr

/-- An HTTP response: status, optional Content-Type, any further headers set
explicitly by the handler, and the body. -/
structure HttpResponse where
  status : Nat
  contentType : Option String
  extraHeaders : List (String × String)
  body : RespBody
deriving DecidableEq, Repr

/-- Filesystem events on the temp directory performed during one request. -/
inductive FsEvent where
  | create (p : String)
  | rename (src dst : String)
  | unlink (p : String)
deriving DecidableEq, Repr

/-- One step of filesystem evolution: the set (list) of existing temp paths. -/
def applyFs (paths : List String) : FsEvent → List String
  | .create p => p :: paths
  | .rename src dst => dst :: paths.erase src
  | .unlink p => paths.erase p

/-- The temp paths existing after a request, starting from an empty temp dir. -/
def finalFs (evs : List FsEvent) : List String := evs.foldl applyFs []

/-- How many `unlink` calls a trace contains. -/
def unlinkCount (evs : List FsEvent) : Nat :=
  (evs.filter fun e => match e with | .unlink _ => true | _ => false).length

/-- How many `create` events a trace contains. -/
def createCount (evs : List FsEvent) : Nat :=
  (evs.filter fun e => match e with | .create _ => true | _ => false).length

/-- The member names a string-keyed bracket access on a plain object
literal finds on `Object.prototype` when it misses the literal's own
properties (Node's standard members, accessors included).  Each yields a
truthy value — a function, or an object for `__proto__`. -/
def OBJECT_PROTOTYPE_MEMBERS : List String :=
  ["constructor", "hasOwnProperty", "isPrototypeOf", "propertyIsEnumerable",
   "toLocaleString", "toString", "valueOf", "__proto__",
   "__defineGetter__", "__defineSetter__", "__lookupGetter__", "__lookupSetter__"]

/-- The `.positive`/`.negative` accesses on whatever `obj[key] || fallback`
produced: each is a string, or `undefined` (`none`) when the value reached
through the prototype chain has no such field. -/
structure JsPromptPair where
  positive : Option String
  negative : Option String
deriving DecidableEq, Repr

/-- `obj[key] || fallback` for a plain object literal holding prompt pairs,
with JavaScript lookup semantics: an own property yields its pair's fields;
a key that misses the own properties but names an inherited
`Object.prototype` member yields that truthy value, whose prompt fields
are `undefined`; any other key yields `undefined`, which is falsy, so the
fallback pair is taken. -/
def jsIndexOrDefault (own : List (String × PromptPair)) (key : String)
    (fallback : PromptPair) : JsPromptPair :=
  match own.lookup key with
  | some p => ⟨some p.positive, some p.negative⟩
  | none =>
      if key ∈ OBJECT_PROTOTYPE_MEMBERS then ⟨none, none⟩
      else ⟨some fallback.positive, some fallback.negative⟩

/-- One HTTP call from the orchestrator to the inference backend.  For job /
image-generation submissions the style prompts carried in the payload are
recorded (`none` when the prompt was `undefined` and `JSON.stringify`
dropped the field); auxiliary fetches carry no prompts. -/
structure BackendCall where
  endpoint : String
  positive : Option String
  negative : Option String
deriving DecidableEq, Repr

/-- The multipart file part of a `/generate` request, as multer sees it. -/
structure UploadedFile where
  path : String
  mimetype : String
  originalname : String
  content : Bytes
deriving DecidableEq, Repr

/-- A `/generate` request: the `X-Family-Pin` header, the optional `image`
file part, and the optional `style` form field. -/
structure GenRequest where
  headerPin : Option String
  file : Option UploadedFile
  style : Option String
deriving DecidableEq, Repr

/-- `const style = (req.body.style as string) || "anime"` — a missing field
(undefined) and the empty string are both falsy in JavaScript.  Identical in
both server variants. -/
def styleOf : Option String → String
  | none => "anime"
  | some s => if s = "" then "anime" else s

/-- Outcome of one `/generate` run: the response sent, the filesystem trace,
and the backend calls attempted. -/
structure RunResult where
  resp : HttpResponse
  fs : List FsEvent
  calls : List BackendCall
deriving DecidableEq, Repr

end ImgApp

namespace ImgApp.A1111

/-- `STYLE_PROMPTS.anime` from `orchestrator/src/index.ts`. -/
def animePrompt : PromptPair :=
  { positive :=
      "anime style, high quality anime artwork, studio ghibli style, detailed anime face, vibrant colors, beautiful lighting, masterpiece, best quality, detailed eyes, smooth skin"
  , negative :=
      "photo, realistic, 3d render, ugly, deformed, blurry, low quality, bad anatomy, bad proportions, extra limbs, cloned face, disfigured, gross proportions, malformed limbs, missing arms, missing legs, extra arms, extra legs, fused fingers, too many fingers, long neck, username, watermark, signature" }

/-- `STYLE_PROMPTS.cartoon` from `orchestrator/src/index.ts`. -/
def cartoonPrompt : PromptPair :=
  { positive :=
      "pixar style, 3d cartoon, disney style, high quality 3d render, colorful, smooth shading, expressive face, vibrant colors, professional 3d art, octane render, masterpiece, best quality"
  , negative :=
      "anime, realistic photo, ugly, deformed, blurry, low quality, bad anatomy, bad proportions, extra limbs, disfigured, gross proportions, malformed limbs, missing arms, missing legs, extra arms, extra legs, fused fingers, too many fingers, long neck, username, watermark, signature, 2d, flat" }

/-- The `STYLE_PROMPTS` record, as an association list over own properties. -/
def STYLE_PROMPTS : List (String × PromptPair) :=
  [("anime", animePrompt), ("cartoon", cartoonPrompt)]

/-- `STYLE_PROMPTS[style] || STYLE_PROMPTS.anime` (index.ts line 74), with
JavaScript bracket-lookup semantics: the prototype chain is consulted, so
a style naming an inherited `Object.prototype` member returns that truthy
value and the `||` fallback does not fire — the prompts then read as
`undefined`. -/
def stylePromptFor (s : String) : JsPromptPair :=
  jsIndexOrDefault STYLE_PROMPTS s animePrompt

/-- Behaviour of the A1111 backend on the single `img2img` fetch: either the
fetch itself throws (network failure), or an HTTP response arrives with a
status, the parsed `images` array, and the error text used only for logging. -/
inductive A1111Outcome where
  | fetchError (detail : String)
  | httpResp (status : Nat) (images : List String) (errorText : String)
deriving DecidableEq, Repr

/-- The `img2img` call built by the handler (index.ts lines 82–100): the
payload carries the chosen style's positive and negative prompts —
`undefined` prompts are dropped from the JSON body. -/
def img2imgCall (sp : JsPromptPair) : BackendCall :=
  { endpoint := "/sdapi/v1/img2img", positive := sp.positive, negative := sp.negative }

/-- The files multer's `upload.single("image")` writes to the temp dir before
the route handler runs (this variant configures no `fileFilter`). -/
def multerEvents (req : GenRequest) : List FsEvent :=
  match req.file with
  | some f => [.create f.path]
  | none => []

/-- The fixed error body of the catch-all handler (index.ts lines 129–131). -/
def genericFailure : RespBody :=
  .jsonError "Generation failed. Is Automatic1111 running with --api flag?"

/-- `POST /generate` of the A1111 variant (index.ts lines 63–133).  Middleware
order is `upload.single("image")` then the handler, so the temp file is
written before the PIN header is checked.  The handler: PIN check → file
presence check → read file, call `img2img` → on HTTP ok, `unlinkSync`, then
fail if the images array is empty, else send the first image as `image/png`;
on any thrown error the catch block unlinks the temp file if it still exists
and sends the fixed generic 500 body. -/
def generate (cfg : Config) (req : GenRequest) (backend : A1111Outcome) : RunResult :=
  let fs0 := multerEvents req
  if req.headerPin = some cfg.familyPin then
    match req.file with
    | none => ⟨⟨400, none, [], .jsonError "No image provided"⟩, fs0, []⟩
    | some f =>
      let sp := stylePromptFor (styleOf req.style)
      let call := img2imgCall sp
      match backend with
      | .fetchError _ =>
          -- fetch threw; catch: existsSync true → unlink, then generic 500
          ⟨⟨500, none, [], genericFailure⟩, fs0 ++ [.unlink f.path], [call]⟩
      | .httpResp status images _ =>
          if 200 ≤ status ∧ status < 300 then
            -- response.ok: json parsed, then `fs.unlinkSync(req.file.path)`
            if images.isEmpty then
              -- throw "No image generated"; catch: existsSync false → no second unlink
              ⟨⟨500, none, [], genericFailure⟩, fs0 ++ [.unlink f.path], [call]⟩
            else
              ⟨⟨200, some "image/png", [], .imageData (images.headD "")⟩,
                fs0 ++ [.unlink f.path], [call]⟩
          else
            -- throw `A1111 returned ${status}`; catch: unlink, generic 500
            ⟨⟨500, none, [], genericFailure⟩, fs0 ++ [.unlink f.path], [call]⟩
  else
    -- `return res.status(401).json({ error: "Unauthorized" })` — no cleanup
    ⟨⟨401, none, [], .jsonError "Unauthorized"⟩, fs0, []⟩

/-- `POST /auth` of the A1111 variant (index.ts lines 39–46): JavaScript
strict equality of the body's `pin` field against the configured PIN. -/
def auth (cfg : Config) (pin : JVal) : HttpResponse :=
  if jsStrictEqStr pin cfg.familyPin then ⟨200, none, [], .jsonSuccess⟩
  else ⟨401, none, [], .jsonError "Invalid PIN"⟩

end ImgApp.A1111

namespace ImgApp.Comfy

/-- `PROMPTS.anime` from the ComfyUI variant. -/
def animePrompt : PromptPair :=
  { positive :=
      "masterpiece, best quality, anime style, vibrant colors, detailed eyes, beautiful lighting, sharp focus"
  , negative :=
      "lowres, bad anatomy, bad hands, text, error, missing fingers, cropped, worst quality, low quality, jpeg artifacts, ugly, duplicate, blurry, realistic, photo" }

/-- `PROMPTS.cartoon` from the ComfyUI variant. -/
def cartoonPrompt : PromptPair :=
  { positive :=
      "cartoon style, pixar style, 3d render, vibrant colors, smooth shading, professional lighting, high quality"
  , negative :=
      "lowres, bad anatomy, text, error, cropped, worst quality, low quality, jpeg artifacts, ugly, blurry, realistic, anime" }

/-- The `PROMPTS` record, as an association list over own properties. -/
def PROMPTS : List (String × PromptPair) :=
  [("anime", animePrompt), ("cartoon", cartoonPrompt)]

/-- `PROMPTS[style] || PROMPTS.anime` (`createWorkflow`, first line), with
JavaScript bracket-lookup semantics: a style naming an inherited
`Object.prototype` member returns that truthy value, so the `||` fallback
does not fire and the prompts read as `undefined`. -/
def promptsFor (s : String) : JsPromptPair :=
  jsIndexOrDefault PROMPTS s animePrompt

/-- The fields of the ComfyUI job graph that vary with the request: the
input-image path wired into the LoadImage node and the positive/negative
CLIPTextEncode texts — `none` when the selected prompt was `undefined` and
`JSON.stringify` dropped the `text` field.  (The randomly drawn KSampler
seed and the fixed sampling constants are not modelled.) -/
structure Workflow where
  inputImage : String
  positive : Option String
  negative : Option String
deriving DecidableEq, Repr

/-- `createWorkflow(inputImagePath, style)`. -/
def createWorkflow (inputImagePath : String) (style : String) : Workflow :=
  let prompts := promptsFor style
  { inputImage := inputImagePath, positive := prompts.positive, negative := prompts.negative }

/-- A WebSocket message after the handler's `JSON.parse` attempt: either the
raw data was not JSON, or it parsed with some `type` field and possibly a
`data.prompt_id` field (`promptId = none` models a missing/absent field —
accessing it then throws inside the same try block and is likewise ignored). -/
inductive WsMsg where
  | malformed (raw : String)
  | parsed (mtype : String) (promptId : Option String)
deriving DecidableEq, Repr

/-- What can arrive on the notification channel. -/
inductive WsRaw where
  | message (m : WsMsg)
  | wsError (detail : String)
deriving DecidableEq, Repr

/-- A channel event together with its arrival time in milliseconds after the
channel was opened. -/
structure TimedEvent where
  time : Nat
  ev : WsRaw
deriving DecidableEq, Repr

/-- The handler's completion test:
`message.type === "executed" && message.data.prompt_id === promptId`. -/
def isMatchFor (pid : String) : WsMsg → Bool
  | .parsed t q => t == "executed" && q == some pid
  | .malformed _ => false

/-- The hard-coded two-minute bound: `setTimeout(..., 120000)`. -/
def COMFY_TIMEOUT_MS : Nat := 120000

/-- How the wait promise settled. -/
inductive WaitOutcome where
  | completed (t : Nat)
  | timedOut
  | channelError (detail : String)
deriving DecidableEq, Repr

/-- `waitForCompletion(promptId)` over a chronologically ordered channel
trace: the first event inside the two-minute window decides — a channel
error rejects, a matching `executed` message resolves, and every other
message is skipped; if no event inside the window decides, the timer fires
and the promise rejects with the timeout error. -/
def waitForCompletion (pid : String) : List TimedEvent → WaitOutcome
  | [] => .timedOut
  | e :: rest =>
    if COMFY_TIMEOUT_MS ≤ e.time then .timedOut
    else
      match e.ev with
      | .wsError d => .channelError d
      | .message m =>
          if isMatchFor pid m then .completed e.time
          else waitForCompletion pid rest

/-- Whether `ws.close()` was called by the time the promise settled: the
timeout callback closes before rejecting, the match branch closes before
resolving, but the `error` listener only clears the timer and rejects. -/
def channelClosed (pid : String) (evs : List TimedEvent) : Bool :=
  match waitForCompletion pid evs with
  | .completed _ => true
  | .timedOut => true
  | .channelError _ => false

/-- `s.startsWith(pre)`: prefix test over the underlying characters. -/
def jsStartsWith (s pre : String) : Bool :=
  s.toList.take pre.toList.length == pre.toList

/-- Reference to the output image in `history[promptId].outputs["8"].images[0]`. -/
structure ViewRef where
  filename : String
  subfolder : Option String
  imgType : String
deriving DecidableEq, Repr

/-- Behaviour of the `POST /prompt` queue submission. -/
inductive QueueOutcome where
  | fetchError (detail : String)
  | httpResp (status : Nat) (promptId : String) (statusText : String)
deriving DecidableEq, Repr

/-- Behaviour of the ComfyUI backend for one request: the queue submission
outcome, the notification-channel trace, the output-image reference the
history endpoint reports (none models a missing output), and the bytes the
view endpoint serves. -/
structure ComfyBackend where
  queue : QueueOutcome
  events : List TimedEvent
  historyImage : Option ViewRef
  viewData : String
deriving DecidableEq, Repr

/-- `path.extname`: the suffix of the name from its last dot, empty when
there is no dot or the only dot leads the name. -/
def extname (name : String) : String :=
  let cs := name.toList
  let idxs := (List.range cs.length).filter fun i => cs.getD i ' ' = '.'
  match idxs.getLast? with
  | none => ""
  | some 0 => ""
  | some i => String.mk (cs.drop i)

/-- `const ext = path.extname(file.originalname) || ".jpg"` — the empty
string is falsy. -/
def extnameOr (name : String) : String :=
  if extname name = "" then ".jpg" else extname name

/-- The fixed error body of the catch block: `{ error: "Generation failed" }`. -/
def genericFailure : RespBody := .jsonError "Generation failed"

/-- The no-cache headers set on success. -/
def noCacheHeaders : List (String × String) :=
  [("Cache-Control", "no-store, no-cache, must-revalidate"), ("Pragma", "no-cache")]

/-- The handler body of `POST /generate` once a file passed multer: rename
the temp file to carry an extension, queue the workflow, wait for
completion, fetch history and the output image, send it with no-cache
headers; any failure is caught and answered with the fixed generic 500
body; the `finally` block always runs `cleanupFile(newPath)`, whose
`existsSync` guard is true on every path here, so it unlinks once. -/
def handleFile (req : GenRequest) (f : UploadedFile) (b : ComfyBackend) : RunResult :=
  let newPath := f.path ++ extnameOr f.originalname
  let fs0 : List FsEvent := [.create f.path, .rename f.path newPath]
  let fsDone := fs0 ++ [.unlink newPath]
  let wf := createWorkflow newPath (styleOf req.style)
  let queueCall : BackendCall := ⟨"/prompt", wf.positive, wf.negative⟩
  match b.queue with
  | .fetchError _ => ⟨⟨500, none, [], genericFailure⟩, fsDone, [queueCall]⟩
  | .httpResp status pid _ =>
    if 200 ≤ status ∧ status < 300 then
      match waitForCompletion pid b.events with
      | .timedOut => ⟨⟨500, none, [], genericFailure⟩, fsDone, [queueCall]⟩
      | .channelError _ => ⟨⟨500, none, [], genericFailure⟩, fsDone, [queueCall]⟩
      | .completed _ =>
        let histCall : BackendCall := ⟨"/history/" ++ pid, none, none⟩
        match b.historyImage with
        | none =>
            -- reject(new Error("No output image")) → catch → generic 500
            ⟨⟨500, none, [], genericFailure⟩, fsDone, [queueCall, histCall]⟩
        | some img =>
            let viewCall : BackendCall :=
              ⟨"/view?filename=" ++ img.filename ++ "&subfolder=" ++ img.subfolder.getD ""
                 ++ "&type=" ++ img.imgType, none, none⟩
            ⟨⟨200, some "image/png", noCacheHeaders, .imageData b.viewData⟩,
              fsDone, [queueCall, histCall, viewCall]⟩
    else
      -- queueWorkflow throws `ComfyUI error: ...` → catch → generic 500
      ⟨⟨500, none, [], genericFailure⟩, fsDone, [queueCall]⟩

/-- `POST /generate` of the ComfyUI variant: the route is declared as
`app.post("/generate", authMiddleware, upload.single("image"), handler)`,
so the PIN check runs first, then multer (whose `fileFilter` rejects any
mimetype not starting with `image/` before writing anything), then the
handler, which 400s when no file arrived. -/
def comfyGenerate (cfg : Config) (req : GenRequest) (b : ComfyBackend) : RunResult :=
  if req.headerPin = some cfg.familyPin then
    match req.file with
    | none => ⟨⟨400, none, [], .jsonError "No image uploaded"⟩, [], []⟩
    | some f =>
      if jsStartsWith f.mimetype "image/" then
        handleFile req f b
      else
        -- fileFilter: cb(new Error("Only images allowed")) → Express error handler
        ⟨⟨500, none, [], .jsonError "Only images allowed"⟩, [], []⟩
  else
    -- authMiddleware: res.status(401).json({ error: "Invalid PIN" })
    ⟨⟨401, none, [], .jsonError "Invalid PIN"⟩, [], []⟩

/-- `POST /auth` of the ComfyUI variant — character-identical logic to the
A1111 variant's `/auth`. -/
def auth (cfg : Config) (pin : JVal) : HttpResponse :=
  if jsStrictEqStr pin cfg.familyPin then ⟨200, none, [], .jsonSuccess⟩
  else ⟨401, none, [], .jsonError "Invalid PIN"⟩

end ImgApp.Comfy

namespace ImgApp.Comfy

/-- A channel event that cannot settle the wait: a message (not a channel
error) that is malformed or does not match the submitted job identifier. -/
def nonDecisive (pid : String) (e : TimedEvent) : Bool :=
  match e.ev with
  | .wsError _ => false
  | .message m => !isMatchFor pid m

/-- The client-visible body of any failing ComfyUI-variant `/generate`
response, as a function of the request alone: the auth middleware's body,
the missing-file body, the upload filter's body, or the fixed generic
failure body — never backend-derived text. -/
def errBodyOf (cfg : Config) (req : GenRequest) : RespBody :=
  if req.headerPin = some cfg.familyPin then
    match req.file with
    | none => .jsonError "No image uploaded"
    | some f =>
        if jsStartsWith f.mimetype "image/" then genericFailure
        else .jsonError "Only images allowed"
  else .jsonError "Invalid PIN"

end ImgApp.Comfy

namespace ImgApp.A1111

/-- The client-visible body of any failing A1111-variant `/generate`
response, as a function of the request alone. -/
def errBodyOf (cfg : Config) (req : GenRequest) : RespBody :=
  if req.headerPin = some cfg.familyPin then
    match req.file with
    | none => .jsonError "No image provided"
    | some _ => genericFailure
  else .jsonError "Unauthorized"

end ImgApp.A1111

namespace ImgApp

/-- A sample configuration: the default PIN. -/
def cfg0 : Config := ⟨"1234"⟩

/-- A sample image upload as multer records it. -/
def imgFile : UploadedFile := ⟨"temp/abc123", "image/jpeg", "photo.jpg", [255, 216]⟩

/-- A sample non-image upload. -/
def textFile : UploadedFile := ⟨"temp/abc124", "text/plain", "notes.txt", [104, 105]⟩

/-- A request presenting the wrong PIN with an image attached. -/
def reqWrongPin : GenRequest := ⟨some "0000", some imgFile, some "anime"⟩

/-- A well-formed request: correct PIN, image upload, cartoon style. -/
def reqOkA : GenRequest := ⟨some "1234", some imgFile, some "cartoon"⟩

/-- A request with correct PIN but a text/plain upload. -/
def reqTextA : GenRequest := ⟨some "1234", some textFile, some "anime"⟩

/-- An A1111 backend that answers 200 with one generated image. -/
def bOkA : A1111.A1111Outcome := .httpResp 200 ["b64output"] ""

/-- A sample output-image reference in ComfyUI's history. -/
def viewRef0 : Comfy.ViewRef := ⟨"ComfyUI_0001.png", none, "output"⟩

/-- A notification trace whose matching completion event arrives in time. -/
def okEvents : List Comfy.TimedEvent :=
  [⟨100, .message (.parsed "status" none)⟩,
   ⟨5000, .message (.parsed "executed" (some "p1"))⟩]

/-- A ComfyUI backend that queues job "p1" and completes it. -/
def bOkC : Comfy.ComfyBackend := ⟨.httpResp 200 "p1" "OK", okEvents, some viewRef0, "pngbytes"⟩

/-- A notification trace with only noise inside the two-minute window: a
non-JSON frame, an unrelated status message, a completion for a different
job, and the matching completion arriving only after the bound. -/
def quietEvents : List Comfy.TimedEvent :=
  [⟨100, .message (.malformed "hello")⟩,
   ⟨200, .message (.parsed "progress" none)⟩,
   ⟨300, .message (.parsed "executed" (some "otherjob"))⟩,
   ⟨130000, .message (.parsed "executed" (some "p1"))⟩]

/-- A ComfyUI backend that accepts job "p1" but never signals completion in
time. -/
def bTimeoutC : Comfy.ComfyBackend := ⟨.httpResp 200 "p1" "OK", quietEvents, none, ""⟩

/-- A ComfyUI backend whose queue submission fails at the network level. -/
def bNetErrC : Comfy.ComfyBackend := ⟨.fetchError "socket hang up", [], none, ""⟩

/-- An A1111 backend failing with one network-level error detail. -/
def bErrA1 : A1111.A1111Outcome := .fetchError "connect ECONNREFUSED 127.0.0.1:7860"

/-- An A1111 backend failing with a different, HTTP-level error detail. -/
def bErrA2 : A1111.A1111Outcome := .httpResp 503 [] "CUDA out of memory"

/-- A request whose style names an inherited `Object.prototype` member. -/
def reqProtoA : GenRequest := ⟨some "1234", some imgFile, some "constructor"⟩

end ImgApp
namespace ImgApp

/-- Cleanup algebra: create, rename, then unlink of the renamed path leaves
the temp directory empty. -/
theorem finalFs_create_rename_unlink (p q : String) :
    finalFs [.create p, .rename p q, .unlink q] = [] := by
  simp [finalFs, applyFs]

/-- If every channel event inside the two-minute window is a non-decisive
message, the wait promise settles by timeout. -/
theorem wait_timedOut_of_quiet (pid : String) (evs : List Comfy.TimedEvent)
    (h : ∀ e ∈ evs, e.time < Comfy.COMFY_TIMEOUT_MS → Comfy.nonDecisive pid e = true) :
    Comfy.waitForCompletion pid evs = .timedOut := by
  induction evs with
  | nil => rfl
  | cons e rest ih =>
    obtain ⟨t, ev⟩ := e
    have htail : ∀ e' ∈ rest, e'.time < Comfy.COMFY_TIMEOUT_MS →
        Comfy.nonDecisive pid e' = true := fun e' he' => h e' (by simp [he'])
    by_cases ht : Comfy.COMFY_TIMEOUT_MS ≤ t
    · simp [Comfy.waitForCompletion, ht]
    · have hnd := h ⟨t, ev⟩ (by simp) (Nat.not_le.mp ht)
      cases ev with
      | wsError d => simp [Comfy.nonDecisive] at hnd
      | message m =>
        simp [Comfy.nonDecisive] at hnd
        simp [Comfy.waitForCompletion, ht, hnd]
        exact ih htail

/-- Any failing A1111 `/generate` response carries a body determined by the
request alone. -/
theorem a1111_err_body (cfg : Config) (req : GenRequest) (b : A1111.A1111Outcome)
    (h : 400 ≤ (A1111.generate cfg req b).resp.status) :
    (A1111.generate cfg req b).resp.body = A1111.errBodyOf cfg req := by
  rcases req with ⟨hpin, file, style⟩
  by_cases hp : hpin = some cfg.familyPin
  · cases file with
    | none => simp [A1111.generate, A1111.errBodyOf, hp]
    | some f =>
      cases b with
      | fetchError d => simp [A1111.generate, A1111.errBodyOf, hp]
      | httpResp st imgs et =>
        by_cases hok : 200 ≤ st ∧ st < 300
        · by_cases he : imgs.isEmpty
          · simp [A1111.generate, A1111.errBodyOf, hp, hok, he]
          · simp [A1111.generate, hp, hok, he] at h
        · simp [A1111.generate, A1111.errBodyOf, hp, hok]
  · simp [A1111.generate, A1111.errBodyOf, hp]

/-- A 200 A1111 `/generate` response is the image body with `image/png` and
no further headers. -/
theorem a1111_success_shape (cfg : Config) (req : GenRequest) (b : A1111.A1111Outcome)
    (h : (A1111.generate cfg req b).resp.status = 200) :
    (A1111.generate cfg req b).resp.contentType = some "image/png" ∧
    (A1111.generate cfg req b).resp.extraHeaders = [] ∧
    ∃ d, (A1111.generate cfg req b).resp.body = .imageData d := by
  rcases req with ⟨hpin, file, style⟩
  by_cases hp : hpin = some cfg.familyPin
  · cases file with
    | none => simp [A1111.generate, hp] at h
    | some f =>
      cases b with
      | fetchError d => simp [A1111.generate, hp] at h
      | httpResp st imgs et =>
        by_cases hok : 200 ≤ st ∧ st < 300
        · by_cases he : imgs.isEmpty
          · simp [A1111.generate, hp, hok, he] at h
          · simp [A1111.generate, hp, hok, he]
        · simp [A1111.generate, hp, hok] at h
  · simp [A1111.generate, hp] at h

/-- Any failing ComfyUI `/generate` response carries a body determined by
the request alone. -/
theorem comfy_err_body (cfg : Config) (req : GenRequest) (b : Comfy.ComfyBackend)
    (h : 400 ≤ (Comfy.comfyGenerate cfg req b).resp.status) :
    (Comfy.comfyGenerate cfg req b).resp.body = Comfy.errBodyOf cfg req := by
  rcases req with ⟨hpin, file, style⟩
  by_cases hp : hpin = some cfg.familyPin
  · cases file with
    | none => simp [Comfy.comfyGenerate, Comfy.errBodyOf, hp]
    | some f =>
      by_cases hm : Comfy.jsStartsWith f.mimetype "image/" = true
      · rcases hq : b.queue with d | ⟨st, pid, stext⟩
        · simp [Comfy.comfyGenerate, Comfy.handleFile, Comfy.errBodyOf, hp, hm, hq]
        · by_cases hok : 200 ≤ st ∧ st < 300
          · rcases hw : Comfy.waitForCompletion pid b.events with t | _ | d
            · rcases hh : b.historyImage with _ | img
              · simp [Comfy.comfyGenerate, Comfy.handleFile, Comfy.errBodyOf,
                      hp, hm, hq, hok, hw, hh]
              · simp [Comfy.comfyGenerate, Comfy.handleFile, hp, hm, hq, hok, hw, hh] at h
            · simp [Comfy.comfyGenerate, Comfy.handleFile, Comfy.errBodyOf,
                    hp, hm, hq, hok, hw]
            · simp [Comfy.comfyGenerate, Comfy.handleFile, Comfy.errBodyOf,
                    hp, hm, hq, hok, hw]
          · simp [Comfy.comfyGenerate, Comfy.handleFile, Comfy.errBodyOf, hp, hm, hq, hok]
      · simp [Comfy.comfyGenerate, Comfy.errBodyOf, hp, hm]
  · simp [Comfy.comfyGenerate, Comfy.errBodyOf, hp]

/-- A 200 ComfyUI `/generate` response is the image body with `image/png`
and exactly the no-cache headers. -/
theorem comfy_success_shape (cfg : Config) (req : GenRequest) (b : Comfy.ComfyBackend)
    (h : (Comfy.comfyGenerate cfg req b).resp.status = 200) :
    (Comfy.comfyGenerate cfg req b).resp.contentType = some "image/png" ∧
    (Comfy.comfyGenerate cfg req b).resp.extraHeaders = Comfy.noCacheHeaders ∧
    ∃ d, (Comfy.comfyGenerate cfg req b).resp.body = .imageData d := by
  rcases req with ⟨hpin, file, style⟩
  by_cases hp : hpin = some cfg.familyPin
  · cases file with
    | none => simp [Comfy.comfyGenerate, hp] at h
    | some f =>
      by_cases hm : Comfy.jsStartsWith f.mimetype "image/" = true
      · rcases hq : b.queue with d | ⟨st, pid, stext⟩
        · simp [Comfy.comfyGenerate, Comfy.handleFile, hp, hm, hq] at h
        · by_cases hok : 200 ≤ st ∧ st < 300
          · rcases hw : Comfy.waitForCompletion pid b.events with t | _ | d
            · rcases hh : b.historyImage with _ | img
              · simp [Comfy.comfyGenerate, Comfy.handleFile, hp, hm, hq, hok, hw, hh] at h
              · simp [Comfy.comfyGenerate, Comfy.handleFile, hp, hm, hq, hok, hw, hh]
            · simp [Comfy.comfyGenerate, Comfy.handleFile, hp, hm, hq, hok, hw] at h
            · simp [Comfy.comfyGenerate, Comfy.handleFile, hp, hm, hq, hok, hw] at h
          · simp [Comfy.comfyGenerate, Comfy.handleFile, hp, hm, hq, hok] at h
      · simp [Comfy.comfyGenerate, hp, hm] at h
  · simp [Comfy.comfyGenerate, hp] at h

/-- Every backend call the A1111 handler makes is the single `img2img`
submission carrying the selected style's prompt pair. -/
theorem a1111_calls_char (cfg : Config) (req : GenRequest) (b : A1111.A1111Outcome) :
    ∀ c ∈ (A1111.generate cfg req b).calls,
      c = A1111.img2imgCall (A1111.stylePromptFor (styleOf req.style)) := by
  rcases req with ⟨hpin, file, style⟩
  by_cases hp : hpin = some cfg.familyPin
  · cases file with
    | none => simp [A1111.generate, hp]
    | some f =>
      cases b with
      | fetchError d => simp [A1111.generate, hp]
      | httpResp st imgs et =>
        by_cases hok : 200 ≤ st ∧ st < 300
        · by_cases he : imgs.isEmpty <;> simp [A1111.generate, hp, hok, he]
        · simp [A1111.generate, hp, hok]
  · simp [A1111.generate, hp]

/-- Unrecognized style names that do not collide with an inherited
`Object.prototype` member fall back to the anime prompt pair in both
variants' lookup expressions. -/
theorem promptFor_unknown (s : String) (h1 : s ≠ "anime") (h2 : s ≠ "cartoon")
    (hm : s ∉ OBJECT_PROTOTYPE_MEMBERS) :
    A1111.stylePromptFor s
        = ⟨some A1111.animePrompt.positive, some A1111.animePrompt.negative⟩ ∧
    Comfy.promptsFor s
        = ⟨some Comfy.animePrompt.positive, some Comfy.animePrompt.negative⟩ := by
  have b1 : (s == "anime") = false := beq_eq_false_iff_ne.mpr h1
  have b2 : (s == "cartoon") = false := beq_eq_false_iff_ne.mpr h2
  constructor <;>
    simp [A1111.stylePromptFor, Comfy.promptsFor, jsIndexOrDefault,
          A1111.STYLE_PROMPTS, Comfy.PROMPTS, List.lookup, b1, b2, hm]

end ImgApp

namespace ImgApp

/-- C1: in the A1111 variant the multer middleware writes the temp upload
file before the handler checks the PIN, and the 401 early return performs
no cleanup, so a wrong-PIN request with an image attached leaves the temp
file on disk after the response — violating the delete-exactly-once
invariant.  Concrete failing run: configured PIN "1234", header PIN
"0000", image attached; the response is 401, the trace contains the
creation and no unlink, and the file still exists afterwards. -/
theorem c1_a1111_temp_file_leaks_on_wrong_pin :
    (A1111.generate cfg0 reqWrongPin bOkA).resp.status = 401 ∧
    (A1111.generate cfg0 reqWrongPin bOkA).fs = [.create "temp/abc123"] ∧
    unlinkCount (A1111.generate cfg0 reqWrongPin bOkA).fs = 0 ∧
    finalFs (A1111.generate cfg0 reqWrongPin bOkA).fs = ["temp/abc123"] := by
  decide

/-- C2: any presented PIN different from the configured one makes `/auth`
(both variants) and `/generate` (both variants) answer 401, with no HTTP
call attempted to the inference backend. -/
theorem c2_wrong_pin_rejected_without_backend_call
    (cfg : Config) (p : String) (hp : p ≠ cfg.familyPin)
    (req : GenRequest) (hr : req.headerPin = some p)
    (bA : A1111.A1111Outcome) (bC : Comfy.ComfyBackend) :
    (A1111.auth cfg (.jstr p)).status = 401 ∧
    (Comfy.auth cfg (.jstr p)).status = 401 ∧
    (A1111.generate cfg req bA).resp.status = 401 ∧
    (A1111.generate cfg req bA).calls = [] ∧
    (Comfy.comfyGenerate cfg req bC).resp.status = 401 ∧
    (Comfy.comfyGenerate cfg req bC).calls = [] := by
  have hne : ¬ req.headerPin = some cfg.familyPin := by
    rw [hr]; simpa using hp
  refine ⟨?_, ?_, ?_, ?_, ?_, ?_⟩ <;>
    simp [A1111.auth, Comfy.auth, A1111.generate, Comfy.comfyGenerate,
          jsStrictEqStr, hp, hne]

/-- Witness for C2: PIN "0000" presented against configured PIN "1234". -/
theorem c2_witness :
    (A1111.auth cfg0 (.jstr "0000")).status = 401 ∧
    (Comfy.auth cfg0 (.jstr "0000")).status = 401 ∧
    (A1111.generate cfg0 reqWrongPin bOkA).resp.status = 401 ∧
    (A1111.generate cfg0 reqWrongPin bOkA).calls = [] ∧
    (Comfy.comfyGenerate cfg0 reqWrongPin bOkC).resp.status = 401 ∧
    (Comfy.comfyGenerate cfg0 reqWrongPin bOkC).calls = [] :=
  c2_wrong_pin_rejected_without_backend_call cfg0 "0000" (by decide)
    reqWrongPin rfl bOkA bOkC

/-- C9: in the ComfyUI variant the auth middleware precedes the upload
middleware, so a wrong (or missing) PIN yields a 401 with an empty
filesystem trace — no temp file is ever created — and no backend call. -/
theorem c9_comfy_auth_before_upload
    (cfg : Config) (req : GenRequest) (b : Comfy.ComfyBackend)
    (h : req.headerPin ≠ some cfg.familyPin) :
    (Comfy.comfyGenerate cfg req b).resp.status = 401 ∧
    (Comfy.comfyGenerate cfg req b).fs = [] ∧
    (Comfy.comfyGenerate cfg req b).calls = [] ∧
    (Comfy.comfyGenerate cfg req b).resp.body = .jsonError "Invalid PIN" := by
  simp [Comfy.comfyGenerate, h]

/-- Witness for C9: wrong PIN with an image upload attached still produces
no filesystem event in the ComfyUI variant. -/
theorem c9_witness :
    (Comfy.comfyGenerate cfg0 reqWrongPin bOkC).resp.status = 401 ∧
    (Comfy.comfyGenerate cfg0 reqWrongPin bOkC).fs = [] ∧
    (Comfy.comfyGenerate cfg0 reqWrongPin bOkC).calls = [] ∧
    (Comfy.comfyGenerate cfg0 reqWrongPin bOkC).resp.body = .jsonError "Invalid PIN" :=
  c9_comfy_auth_before_upload cfg0 reqWrongPin bOkC (by decide)

/-- C10: `/auth` succeeds only on JavaScript strict string equality; every
body whose `pin` field is not the identical string — a number, a boolean,
null, an absent field, or a different string — gets 401 in both variants. -/
theorem c10_auth_strict_equality
    (cfg : Config) (v : JVal) (h : v ≠ .jstr cfg.familyPin) :
    (A1111.auth cfg v).status = 401 ∧
    (Comfy.auth cfg v).status = 401 ∧
    (A1111.auth cfg v).body = .jsonError "Invalid PIN" ∧
    (Comfy.auth cfg v).body = .jsonError "Invalid PIN" := by
  have hb : jsStrictEqStr v cfg.familyPin = false := by
    cases v with
    | jstr s =>
        have hs : s ≠ cfg.familyPin := fun hs => h (by rw [hs])
        simp [jsStrictEqStr, hs]
    | jnum n => rfl
    | jbool b => rfl
    | jnull => rfl
    | jabsent => rfl
  simp [A1111.auth, Comfy.auth, hb]

/-- Witness for C10: the JSON number 1234 against the configured string
PIN "1234" is rejected by both variants. -/
theorem c10_witness :
    (A1111.auth cfg0 (.jnum 1234)).status = 401 ∧
    (Comfy.auth cfg0 (.jnum 1234)).status = 401 ∧
    (A1111.auth cfg0 (.jnum 1234)).body = .jsonError "Invalid PIN" ∧
    (Comfy.auth cfg0 (.jnum 1234)).body = .jsonError "Invalid PIN" :=
  c10_auth_strict_equality cfg0 (.jnum 1234) (by decide)

end ImgApp

namespace ImgApp

/-- C3 counterexample: the A1111 variant's multer has no `fileFilter`, so a
`text/plain` upload with a valid PIN is not rejected — the inference
backend is called and the request even completes with 200. -/
theorem c3_counterexample_a1111_forwards_nonimage :
    (A1111.generate cfg0 reqTextA bOkA).calls ≠ [] ∧
    (A1111.generate cfg0 reqTextA bOkA).resp.status = 200 := by
  constructor
  · decide
  · decide

/-- C3 amended: in the ComfyUI variant, every upload whose mimetype does
not start with `image/` is rejected before any backend call, with no temp
file written and no success response. -/
theorem c3_comfy_nonimage_rejected_before_backend
    (cfg : Config) (req : GenRequest) (b : Comfy.ComfyBackend) (f : UploadedFile)
    (hf : req.file = some f) (hm : Comfy.jsStartsWith f.mimetype "image/" = false) :
    (Comfy.comfyGenerate cfg req b).calls = [] ∧
    (Comfy.comfyGenerate cfg req b).fs = [] ∧
    (Comfy.comfyGenerate cfg req b).resp.status ≠ 200 := by
  by_cases hp : req.headerPin = some cfg.familyPin <;>
    simp [Comfy.comfyGenerate, hp, hf, hm]

/-- Witness for C3 (amended): the ComfyUI variant rejects the text/plain
upload without touching the backend or the temp directory. -/
theorem c3_witness :
    (Comfy.comfyGenerate cfg0 reqTextA bOkC).calls = [] ∧
    (Comfy.comfyGenerate cfg0 reqTextA bOkC).fs = [] ∧
    (Comfy.comfyGenerate cfg0 reqTextA bOkC).resp.status ≠ 200 :=
  c3_comfy_nonimage_rejected_before_backend cfg0 reqTextA bOkC textFile rfl (by decide)

/-- C4 counterexample: a successful A1111-variant `/generate` response is
`image/png` but sets no cache headers at all — in particular no
`Cache-Control: no-store, no-cache, must-revalidate`. -/
theorem c4_counterexample_a1111_success_lacks_cache_headers :
    (A1111.generate cfg0 reqOkA bOkA).resp.status = 200 ∧
    (A1111.generate cfg0 reqOkA bOkA).resp.contentType = some "image/png" ∧
    (A1111.generate cfg0 reqOkA bOkA).resp.extraHeaders = [] ∧
    ((A1111.generate cfg0 reqOkA bOkA).resp.extraHeaders.lookup "Cache-Control") = none := by
  refine ⟨?_, ?_, ?_, ?_⟩ <;> decide

/-- C4 amended: every successful ComfyUI-variant `/generate` response is
image bytes with `Content-Type: image/png`, `Cache-Control: no-store,
no-cache, must-revalidate` and `Pragma: no-cache`; a successful
A1111-variant response is image bytes with `Content-Type: image/png` and
no cache-disabling headers. -/
theorem c4_success_headers
    (cfg : Config) (req req' : GenRequest)
    (bC : Comfy.ComfyBackend) (bA : A1111.A1111Outcome)
    (hC : (Comfy.comfyGenerate cfg req bC).resp.status = 200)
    (hA : (A1111.generate cfg req' bA).resp.status = 200) :
    (Comfy.comfyGenerate cfg req bC).resp.contentType = some "image/png" ∧
    ((Comfy.comfyGenerate cfg req bC).resp.extraHeaders.lookup "Cache-Control")
        = some "no-store, no-cache, must-revalidate" ∧
    ((Comfy.comfyGenerate cfg req bC).resp.extraHeaders.lookup "Pragma")
        = some "no-cache" ∧
    (∃ d, (Comfy.comfyGenerate cfg req bC).resp.body = .imageData d) ∧
    (A1111.generate cfg req' bA).resp.contentType = some "image/png" ∧
    (A1111.generate cfg req' bA).resp.extraHeaders = [] ∧
    (∃ d, (A1111.generate cfg req' bA).resp.body = .imageData d) := by
  obtain ⟨hc1, hc2, hc3⟩ := comfy_success_shape cfg req bC hC
  obtain ⟨ha1, ha2, ha3⟩ := a1111_success_shape cfg req' bA hA
  refine ⟨hc1, ?_, ?_, hc3, ha1, ha2, ha3⟩ <;>
    simp [hc2, Comfy.noCacheHeaders, List.lookup]

/-- Witness for C4 (amended): a completed ComfyUI run and a completed A1111
run at concrete inputs. -/
theorem c4_witness :
    (Comfy.comfyGenerate cfg0 reqOkA bOkC).resp.contentType = some "image/png" ∧
    ((Comfy.comfyGenerate cfg0 reqOkA bOkC).resp.extraHeaders.lookup "Cache-Control")
        = some "no-store, no-cache, must-revalidate" ∧
    ((Comfy.comfyGenerate cfg0 reqOkA bOkC).resp.extraHeaders.lookup "Pragma")
        = some "no-cache" ∧
    (∃ d, (Comfy.comfyGenerate cfg0 reqOkA bOkC).resp.body = .imageData d) ∧
    (A1111.generate cfg0 reqOkA bOkA).resp.contentType = some "image/png" ∧
    (A1111.generate cfg0 reqOkA bOkA).resp.extraHeaders = [] ∧
    (∃ d, (A1111.generate cfg0 reqOkA bOkA).resp.body = .imageData d) :=
  c4_success_headers cfg0 reqOkA reqOkA bOkC bOkA (by decide) (by decide)

/-- C5: in the ComfyUI variant, when every channel event inside the
120000 ms window is a non-matching or malformed message, the wait settles
by timeout, `ws.close()` has been called, and the `/generate` request
fails with the generic 500 error while the temp file is still removed. -/
theorem c5_wait_timeout
    (cfg : Config) (req : GenRequest) (b : Comfy.ComfyBackend)
    (f : UploadedFile) (pid : String) (st : Nat) (stext : String)
    (hpin : req.headerPin = some cfg.familyPin)
    (hf : req.file = some f)
    (hmime : Comfy.jsStartsWith f.mimetype "image/" = true)
    (hq : b.queue = .httpResp st pid stext)
    (hok : 200 ≤ st ∧ st < 300)
    (hquiet : ∀ e ∈ b.events, e.time < Comfy.COMFY_TIMEOUT_MS →
        Comfy.nonDecisive pid e = true) :
    Comfy.waitForCompletion pid b.events = .timedOut ∧
    Comfy.channelClosed pid b.events = true ∧
    (Comfy.comfyGenerate cfg req b).resp.status = 500 ∧
    (Comfy.comfyGenerate cfg req b).resp.body = Comfy.genericFailure ∧
    finalFs (Comfy.comfyGenerate cfg req b).fs = [] := by
  have hw := wait_timedOut_of_quiet pid b.events hquiet
  have hrun : Comfy.comfyGenerate cfg req b =
      ⟨⟨500, none, [], Comfy.genericFailure⟩,
        [.create f.path, .rename f.path (f.path ++ Comfy.extnameOr f.originalname),
         .unlink (f.path ++ Comfy.extnameOr f.originalname)],
        [⟨"/prompt", (Comfy.createWorkflow (f.path ++ Comfy.extnameOr f.originalname)
            (styleOf req.style)).positive,
          (Comfy.createWorkflow (f.path ++ Comfy.extnameOr f.originalname)
            (styleOf req.style)).negative⟩]⟩ := by
    simp [Comfy.comfyGenerate, Comfy.handleFile, hpin, hf, hmime, hq, hok.1, hok.2, hw]
  refine ⟨hw, ?_, ?_, ?_, ?_⟩
  · simp [Comfy.channelClosed, hw]
  · rw [hrun]
  · rw [hrun]
  · rw [hrun]; exact finalFs_create_rename_unlink _ _

/-- Witness for C5: job "p1" queued successfully; the trace holds a
malformed frame, an unrelated message, another job's completion, and the
matching completion only at 130000 ms — past the bound. -/
theorem c5_witness :
    Comfy.waitForCompletion "p1" bTimeoutC.events = .timedOut ∧
    Comfy.channelClosed "p1" bTimeoutC.events = true ∧
    (Comfy.comfyGenerate cfg0 reqOkA bTimeoutC).resp.status = 500 ∧
    (Comfy.comfyGenerate cfg0 reqOkA bTimeoutC).resp.body = Comfy.genericFailure ∧
    finalFs (Comfy.comfyGenerate cfg0 reqOkA bTimeoutC).fs = [] :=
  c5_wait_timeout cfg0 reqOkA bTimeoutC imgFile "p1" 200 "OK"
    rfl rfl (by decide) rfl (by decide) (by decide)

end ImgApp

namespace ImgApp

/-- C6 counterexample: JavaScript bracket lookup consults the prototype
chain, so the style "constructor" (outside {anime, cartoon}) hits a truthy
inherited `Object.prototype` member and the `|| anime` fallback never
fires: both variants' lookups yield `undefined` prompts, not the anime
pair, and the A1111 backend call for such a request carries no prompt
text at all. -/
theorem c6_counterexample_proto_style_no_fallback :
    A1111.stylePromptFor "constructor" = ⟨none, none⟩ ∧
    A1111.stylePromptFor "constructor" ≠
      ⟨some A1111.animePrompt.positive, some A1111.animePrompt.negative⟩ ∧
    Comfy.promptsFor "toString" = ⟨none, none⟩ ∧
    Comfy.promptsFor "toString" ≠
      ⟨some Comfy.animePrompt.positive, some Comfy.animePrompt.negative⟩ ∧
    (A1111.generate cfg0 reqProtoA bOkA).calls = [⟨"/sdapi/v1/img2img", none, none⟩] := by
  refine ⟨?_, ?_, ?_, ?_, ?_⟩ <;> decide

/-- C6 (amended): a missing style field defaults to "anime"; any style
outside {anime, cartoon} that does not name an inherited
`Object.prototype` member falls back to the anime prompt pair in both
variants; a style naming such a member instead reaches the truthy
inherited value, so the prompts used are `undefined`, not the anime pair;
the recognized styles map to their own pairs; the ComfyUI workflow carries
exactly the looked-up pair; and every A1111 backend call carries the pair
selected from the request's style field. -/
theorem c6_style_selection_total :
    styleOf none = "anime" ∧
    (∀ s : String, s ≠ "anime" → s ≠ "cartoon" → s ∉ OBJECT_PROTOTYPE_MEMBERS →
      A1111.stylePromptFor s
          = ⟨some A1111.animePrompt.positive, some A1111.animePrompt.negative⟩ ∧
      Comfy.promptsFor s
          = ⟨some Comfy.animePrompt.positive, some Comfy.animePrompt.negative⟩) ∧
    (∀ s ∈ OBJECT_PROTOTYPE_MEMBERS,
      A1111.stylePromptFor s = ⟨none, none⟩ ∧ Comfy.promptsFor s = ⟨none, none⟩) ∧
    (A1111.stylePromptFor "anime"
         = ⟨some A1111.animePrompt.positive, some A1111.animePrompt.negative⟩ ∧
     A1111.stylePromptFor "cartoon"
         = ⟨some A1111.cartoonPrompt.positive, some A1111.cartoonPrompt.negative⟩ ∧
     Comfy.promptsFor "anime"
         = ⟨some Comfy.animePrompt.positive, some Comfy.animePrompt.negative⟩ ∧
     Comfy.promptsFor "cartoon"
         = ⟨some Comfy.cartoonPrompt.positive, some Comfy.cartoonPrompt.negative⟩) ∧
    (∀ p s, (Comfy.createWorkflow p s).positive = (Comfy.promptsFor s).positive ∧
            (Comfy.createWorkflow p s).negative = (Comfy.promptsFor s).negative) ∧
    (∀ (cfg : Config) (req : GenRequest) (b : A1111.A1111Outcome),
      ∀ c ∈ (A1111.generate cfg req b).calls,
        c = A1111.img2imgCall (A1111.stylePromptFor (styleOf req.style))) := by
  refine ⟨rfl, fun s h1 h2 hm => promptFor_unknown s h1 h2 hm, ?_, ?_, ?_, a1111_calls_char⟩
  · decide
  · refine ⟨?_, ?_, ?_, ?_⟩ <;>
      simp [A1111.stylePromptFor, Comfy.promptsFor, jsIndexOrDefault,
            A1111.STYLE_PROMPTS, Comfy.PROMPTS, List.lookup]
  · intro p s; exact ⟨rfl, rfl⟩

/-- Witness for C6 (amended): the unknown, non-inherited style
"watercolor" falls back to the anime pair in both variants; the inherited
name "valueOf" yields undefined prompts; and the A1111 run on a
cartoon-style request calls the backend with the cartoon pair. -/
theorem c6_witness :
    (A1111.stylePromptFor "watercolor"
         = ⟨some A1111.animePrompt.positive, some A1111.animePrompt.negative⟩ ∧
     Comfy.promptsFor "watercolor"
         = ⟨some Comfy.animePrompt.positive, some Comfy.animePrompt.negative⟩) ∧
    (A1111.stylePromptFor "valueOf" = ⟨none, none⟩ ∧
     Comfy.promptsFor "valueOf" = ⟨none, none⟩) ∧
    A1111.img2imgCall (A1111.stylePromptFor "cartoon") =
      A1111.img2imgCall (A1111.stylePromptFor (styleOf reqOkA.style)) := by
  refine ⟨c6_style_selection_total.2.1 "watercolor" (by decide) (by decide) (by decide),
          c6_style_selection_total.2.2.1 "valueOf" (by decide), ?_⟩
  exact (c6_style_selection_total.2.2.2.2.2 cfg0 reqOkA bOkA
    (A1111.img2imgCall (A1111.stylePromptFor "cartoon"))
    (by simp [A1111.generate, cfg0, reqOkA, imgFile, bOkA, A1111.multerEvents, styleOf])).symm

/-- C7: the Job Waiter ignores any in-window message that is malformed or
whose type/prompt_id does not match the submitted job: such a message
neither resolves nor rejects the wait, which continues on the remaining
trace; malformed frames, wrong prompt_ids and wrong types never match. -/
theorem c7_nonmatching_messages_ignored
    (pid : String) (e : Comfy.TimedEvent) (rest : List Comfy.TimedEvent)
    (m : Comfy.WsMsg) (he : e.ev = .message m)
    (hm : Comfy.isMatchFor pid m = false)
    (ht : e.time < Comfy.COMFY_TIMEOUT_MS) :
    Comfy.waitForCompletion pid (e :: rest) = Comfy.waitForCompletion pid rest ∧
    (∀ raw, Comfy.isMatchFor pid (.malformed raw) = false) ∧
    (∀ t q, q ≠ some pid → Comfy.isMatchFor pid (.parsed t q) = false) ∧
    (∀ q t, t ≠ "executed" → Comfy.isMatchFor pid (.parsed t q) = false) := by
  obtain ⟨t0, ev⟩ := e
  have ht0 : ¬ Comfy.COMFY_TIMEOUT_MS ≤ t0 := Nat.not_le.mpr ht
  have hev : ev = .message m := he
  subst hev
  refine ⟨?_, fun raw => rfl, ?_, ?_⟩
  · simp [Comfy.waitForCompletion, ht0, hm]
  · intro t q hq
    simp [Comfy.isMatchFor, beq_eq_false_iff_ne.mpr hq]
  · intro q t htt
    simp [Comfy.isMatchFor, beq_eq_false_iff_ne.mpr htt]

/-- Witness for C7: a malformed frame at 100 ms is skipped and the wait
continues on the rest of the trace. -/
theorem c7_witness :
    Comfy.waitForCompletion "p1"
        ({ time := 100, ev := .message (.malformed "hello") } ::
          [{ time := 5000, ev := .message (.parsed "executed" (some "p1")) }]) =
      Comfy.waitForCompletion "p1"
        [{ time := 5000, ev := .message (.parsed "executed" (some "p1")) }] :=
  (c7_nonmatching_messages_ignored "p1" ⟨100, .message (.malformed "hello")⟩
    [⟨5000, .message (.parsed "executed" (some "p1"))⟩] (.malformed "hello")
    rfl rfl (by decide)).1

/-- C8: for failing `/generate` requests the client-visible error body does
not depend on the backend's error detail — two runs of the same request
against backends that fail differently produce identical bodies, in both
variants. -/
theorem c8_error_body_independent_of_backend
    (cfg : Config) (req : GenRequest)
    (b1 b2 : A1111.A1111Outcome) (d1 d2 : Comfy.ComfyBackend)
    (h1 : 400 ≤ (A1111.generate cfg req b1).resp.status)
    (h2 : 400 ≤ (A1111.generate cfg req b2).resp.status)
    (h3 : 400 ≤ (Comfy.comfyGenerate cfg req d1).resp.status)
    (h4 : 400 ≤ (Comfy.comfyGenerate cfg req d2).resp.status) :
    (A1111.generate cfg req b1).resp.body = (A1111.generate cfg req b2).resp.body ∧
    (Comfy.comfyGenerate cfg req d1).resp.body = (Comfy.comfyGenerate cfg req d2).resp.body :=
  ⟨(a1111_err_body cfg req b1 h1).trans (a1111_err_body cfg req b2 h2).symm,
   (comfy_err_body cfg req d1 h3).trans (comfy_err_body cfg req d2 h4).symm⟩

/-- Witness for C8: a network refusal versus a 503 with a CUDA message in
the A1111 variant, and a job timeout versus a queue network failure in the
ComfyUI variant, all yield pairwise identical client bodies. -/
theorem c8_witness :
    (A1111.generate cfg0 reqOkA bErrA1).resp.body
        = (A1111.generate cfg0 reqOkA bErrA2).resp.body ∧
    (Comfy.comfyGenerate cfg0 reqOkA bTimeoutC).resp.body
        = (Comfy.comfyGenerate cfg0 reqOkA bNetErrC).resp.body :=
  c8_error_body_independent_of_backend cfg0 reqOkA bErrA1 bErrA2 bTimeoutC bNetErrC
    (by decide) (by decide) (by decide) (by decide)

end ImgApp
